import Mathlib

/-!
Verification of the VoicePulse repository against its natural-language
specification.

The file shallowly embeds the parts of the source the claims are about:

* the supervisor orchestration loop of
  `src/app/agentConfigs/feedbackBot/feedbackBot.ts`
  (`fetchResponsesMessage`, `handleToolCalls`);
* the host-page embed script `public/voicepulse-widget.js`
  (attribute reading, hosted-widget URL construction, idempotent install,
  layout class selection);
* the hosted widget's connection state machine
  (`connectToRealtime`, `disconnectFromRealtime`, `fetchEphemeralKey`,
  the `isResponding` effect) from `src/app/widget/Widget.tsx`;
* the `saveSurveyResponse` tool of the feedback-survey agent together with
  the `surveyQuestions` table it validates against.

Network interactions are modelled as explicit oracles: the stream of
reasoning responses the loop will receive, the outcome of the credential
fetch, and the outcome of the transport handshake are inputs to the
embedded functions, and the network requests a function issues are
returned as an explicit action list.
-/

namespace VoicePulse

/-! ## Orchestration loop (feedbackBot.ts)

`handleToolCalls` loops over reasoning responses.  A response is the JSON
body returned by `/api/responses`: an optional `error` marker plus a list
of output items, each item being a `message` (with content parts) or a
`function_call`.  The running request `body` is threaded through the real
loop only to accumulate history for the next request; it never influences
the loop's control flow or return value, and the responses themselves are
modelled as an oracle stream (`List FetchOutcome`), so the body is not
carried here. -/

/-- One part of a message item's `content` array. -/
structure ContentPart where
  ctype : String
  text : String
deriving DecidableEq, Repr

/-- One element of a reasoning response's `output` array. -/
structure OutputItem where
  itype : String
  content : List ContentPart
  name : String
  callId : String
  arguments : String
deriving DecidableEq, Repr

/-- The JSON value `fetchResponsesMessage` resolves to: either the parsed
completion or the synthetic `{ error: 'Something went wrong.' }` object
(modelled by the `error` flag). -/
structure RespMessage where
  error : Bool
  output : List OutputItem
deriving DecidableEq, Repr

/-- The transport-level outcome of one `fetch('/api/responses')` call:
either a non-success HTTP status (`response.ok` false) or a success
carrying the completion's output items. -/
inductive FetchOutcome where
  | httpFail
  | httpOk (output : List OutputItem)
deriving DecidableEq, Repr

/-- `fetchResponsesMessage` (feedbackBot.ts, lines 79-95): a non-success
HTTP status is converted to the generic error object, a success resolves
to the completion itself. -/
def fetchResponsesMessage : FetchOutcome → RespMessage
  | FetchOutcome.httpFail => { error := true, output := [] }
  | FetchOutcome.httpOk out => { error := false, output := out }

/-- `outputItems.filter((item) => item.type === 'function_call')`. -/
def functionCalls (r : RespMessage) : List OutputItem :=
  r.output.filter (fun item => item.itype = "function_call")

/-- JavaScript `Array.prototype.join(sep)`: elements in order, `sep`
between consecutive elements, no leading or trailing separator. -/
def jsJoin (sep : String) : List String → String
  | [] => ""
  | [x] => x
  | x :: y :: xs => x ++ sep ++ jsJoin sep (y :: xs)

/-- The text of one assistant message item:
`contentArr.filter(c => c.type === 'output_text').map(c => c.text).join('')`. -/
def messageText (m : OutputItem) : String :=
  jsJoin ""
    ((m.content.filter (fun c => c.ctype = "output_text")).map (fun c => c.text))

/-- The message items of a response, in order. -/
def messageItems (r : RespMessage) : List OutputItem :=
  r.output.filter (fun item => item.itype = "message")

/-- `finalText`: the per-message texts joined with `'\n'`
(`assistantMessages.map(...).join('\n')`). -/
def finalText (r : RespMessage) : String :=
  jsJoin "\n" ((messageItems r).map messageText)

/-- The value the orchestration loop returns: the generic error object,
a final text, or — a model artifact only — exhaustion of the finite
response oracle while tool calls were still pending. -/
inductive LoopResult where
  | errorResult
  | textResult (s : String)
  | exhausted
deriving DecidableEq, Repr

/-- `handleToolCalls` (feedbackBot.ts, lines 113-176), with the reasoning
endpoint modelled as a finite oracle stream of fetch outcomes.  Returns
the loop result, the number of further `fetchResponsesMessage` network
calls issued, and the unconsumed suffix of the oracle. -/
def handleToolCalls (resp : RespMessage) (future : List FetchOutcome) :
    LoopResult × Nat × List FetchOutcome :=
  if resp.error then
    (LoopResult.errorResult, 0, future)
  else if functionCalls resp = [] then
    (LoopResult.textResult (finalText resp), 0, future)
  else
    match future with
    | [] => (LoopResult.exhausted, 0, [])
    | f :: rest =>
      let r := handleToolCalls (fetchResponsesMessage f) rest
      (r.1, r.2.1 + 1, r.2.2)

/-- A concrete tool-call request item, as produced by the reasoning
endpoint for the supervisor's `categorizeFeedback` tool. -/
def callItem : OutputItem :=
  { itype := "function_call", content := [], name := "categorizeFeedback",
    callId := "call-1", arguments := "" }

/-- A reasoning response carrying exactly one tool-call request. -/
def callResp : RespMessage := { error := false, output := [callItem] }

/-- A successful fetch whose response carries one tool-call request. -/
def callOutcome : FetchOutcome := FetchOutcome.httpOk [callItem]

/-- A successful fetch whose response carries no tool calls (terminal). -/
def doneOutcome : FetchOutcome := FetchOutcome.httpOk []

/-! ## Widget connection state machine (Widget.tsx)

The hosted widget owns `sessionStatus`, `isMuted`, `isResponding`,
`error`, and the realtime `ConnectionHandle`.  The `useRealtimeSession`
hook itself is not part of this repository's sources; following the spec
(§4.3), its `connect` reports `CONNECTED` on a successful handshake and
its `disconnect` drives the status to `DISCONNECTED`, which is how the
hook is modelled inside `connectToRealtime` and `disconnectFromRealtime`
below.  Everything else mirrors Widget.tsx directly. -/

/-- `SessionStatus` enumeration. -/
inductive SessionStatus where
  | DISCONNECTED
  | CONNECTING
  | CONNECTED
deriving DecidableEq, Repr

/-- The nested `client_secret` object of the `/api/session` JSON. -/
structure ClientSecret where
  value : Option String
deriving DecidableEq, Repr

/-- The `/api/session` JSON body the widget reads the credential from. -/
structure SessionJson where
  value : Option String
  client_secret : Option ClientSecret
deriving DecidableEq, Repr

/-- JavaScript `a ?? b` on nullable strings: `b` only when `a` is
null/undefined (an empty string is kept). -/
def jsNullish (a b : Option String) : Option String :=
  match a with
  | some s => some s
  | none => b

/-- `fetchEphemeralKey` (Widget.tsx, lines 334-338):
`data.value ?? data.client_secret?.value ?? null`. -/
def fetchEphemeralKey (data : SessionJson) : Option String :=
  jsNullish data.value (data.client_secret.bind (fun cs => cs.value))

/-- JavaScript falsiness of the fetched key (`if (!key)`): true for null
and for the empty string. -/
def keyFalsy (k : Option String) : Bool :=
  match k with
  | none => true
  | some s => s = ""

/-- The widget's UI state plus the identity of the live realtime
connection handle (`none` when no connection exists). -/
structure WidgetState where
  sessionStatus : SessionStatus
  isMuted : Bool
  isResponding : Bool
  errorMsg : Option String
  handle : Option Nat
deriving DecidableEq, Repr

/-- The externally visible requests a widget transition issues. -/
inductive WidgetAction where
  | fetchSessionReq
  | transportConnect
  | sendGreeting
  | transportDisconnect
deriving DecidableEq, Repr

/-- Outcome of `fetchEphemeralKey`'s network call: the fetch threw, or it
resolved to a parsed JSON body. -/
inductive KeyFetchOutcome where
  | threw
  | ok (data : SessionJson)
deriving DecidableEq, Repr

/-- Outcome of the realtime transport handshake (`connect(...)`): it
threw, or it produced a live connection handle. -/
inductive HandshakeOutcome where
  | failed
  | ok (handle : Nat)
deriving DecidableEq, Repr

/-- `connectToRealtime` (Widget.tsx, lines 361-394).  Guard: returns at
once unless the status is exactly `DISCONNECTED`.  Then status becomes
`CONNECTING` and the error display is cleared; a falsy key sets
"Missing ephemeral key" and returns to `DISCONNECTED`; a throwing fetch
or failed handshake sets "Failed to connect" and returns to
`DISCONNECTED`; on success the hook reports `CONNECTED` (spec §4.3), the
handle becomes live and the initial greeting is sent. -/
def connectToRealtime (s : WidgetState) (kf : KeyFetchOutcome)
    (hs : HandshakeOutcome) : WidgetState × List WidgetAction :=
  if s.sessionStatus ≠ SessionStatus.DISCONNECTED then (s, [])
  else
    let s1 := { s with sessionStatus := SessionStatus.CONNECTING,
                       errorMsg := none }
    match kf with
    | KeyFetchOutcome.threw =>
        ({ s1 with errorMsg := some "Failed to connect",
                   sessionStatus := SessionStatus.DISCONNECTED },
         [WidgetAction.fetchSessionReq])
    | KeyFetchOutcome.ok data =>
        if keyFalsy (fetchEphemeralKey data) then
          ({ s1 with errorMsg := some "Missing ephemeral key",
                     sessionStatus := SessionStatus.DISCONNECTED },
           [WidgetAction.fetchSessionReq])
        else
          match hs with
          | HandshakeOutcome.failed =>
              ({ s1 with errorMsg := some "Failed to connect",
                         sessionStatus := SessionStatus.DISCONNECTED },
               [WidgetAction.fetchSessionReq, WidgetAction.transportConnect])
          | HandshakeOutcome.ok h =>
              ({ s1 with sessionStatus := SessionStatus.CONNECTED,
                         handle := some h },
               [WidgetAction.fetchSessionReq, WidgetAction.transportConnect,
                WidgetAction.sendGreeting])

/-- `disconnectFromRealtime` (Widget.tsx, lines 396-400): `disconnect()`
tears the transport down and drives the status to `DISCONNECTED`
(spec §4.3), the error display is cleared and `isResponding` is reset. -/
def disconnectFromRealtime (s : WidgetState) : WidgetState × List WidgetAction :=
  ({ s with sessionStatus := SessionStatus.DISCONNECTED, handle := none,
            errorMsg := none, isResponding := false },
   [WidgetAction.transportDisconnect])

/-- The `isResponding` effect (Widget.tsx, lines 431-435): whenever the
status is not `CONNECTED`, `isResponding` is forced false. -/
def applyRespondingEffect (s : WidgetState) : WidgetState :=
  if s.sessionStatus ≠ SessionStatus.CONNECTED then
    { s with isResponding := false }
  else s

/-- The cross-frame message handler (Widget.tsx, lines 402-413):
`voicepulse.connect` triggers `connectToRealtime`,
`voicepulse.disconnect` triggers `disconnectFromRealtime`, everything
else is ignored. -/
def handleWidgetMessage (s : WidgetState) (msgType : String)
    (kf : KeyFetchOutcome) (hs : HandshakeOutcome) :
    WidgetState × List WidgetAction :=
  if msgType = "voicepulse.connect" then connectToRealtime s kf hs
  else if msgType = "voicepulse.disconnect" then disconnectFromRealtime s
  else (s, [])

/-- The header status-button click (Widget.tsx, lines 485-491):
disconnects while `CONNECTED`, connects while `DISCONNECTED`, does
nothing while `CONNECTING`. -/
def headerButtonClick (s : WidgetState) (kf : KeyFetchOutcome)
    (hs : HandshakeOutcome) : WidgetState × List WidgetAction :=
  if s.sessionStatus = SessionStatus.CONNECTED then disconnectFromRealtime s
  else if s.sessionStatus = SessionStatus.DISCONNECTED then
    connectToRealtime s kf hs
  else (s, [])

/-! ## Host-page embed script (voicepulse-widget.js)

The embed script reads its configuration from the `data-*` attributes of
the invoking script tag, injects a container with the reserved id
`voicepulse-widget` (skipping installation entirely when one already
exists), and points the iframe at `{host}/widget?...`.  DOM strings are
modelled as `List Char` where character-level reasoning is needed
(percent-encoding, query splitting). -/

/-- The `data-*` attributes of the invoking script tag.  `inline` is the
`data-inline` attribute documented in the README for the thank-you page
embed; the script's attribute-reading block (lines 13-29) reads the other
eight dataset fields. -/
structure Dataset where
  host : Option String
  agentConfig : Option String
  agentName : Option String
  title : Option String
  position : Option String
  width : Option String
  height : Option String
  buttonLabel : Option String
  inline : Option String
deriving DecidableEq, Repr

/-- JavaScript `x || default` on a possibly-missing attribute string: the
default is used when the attribute is absent or the empty string. -/
def jsOr (o : Option String) (d : String) : String :=
  match o with
  | some s => if s = "" then d else s
  | none => d

/-- The resolved embed configuration. -/
structure EmbedConfig where
  host : String
  agentConfig : String
  agentName : String
  title : String
  position : String
  width : String
  height : String
  buttonLabel : String
deriving DecidableEq, Repr

/-- The attribute-reading block (voicepulse-widget.js, lines 13-29).
`origin` is the outcome of `new URL(script.src).origin` (`none` when the
URL constructor throws, in which case the host falls back to the empty
string).  The script never reads `dataset.inline`. -/
def readConfig (ds : Dataset) (origin : Option String) : EmbedConfig :=
  { host := jsOr ds.host (match origin with | some o => o | none => ""),
    agentConfig := jsOr ds.agentConfig "chatSupervisor",
    agentName := jsOr ds.agentName "",
    title := jsOr ds.title "Voice Assistant",
    position := jsOr ds.position "bottom-right",
    width := jsOr ds.width "360",
    height := jsOr ds.height "520",
    buttonLabel := jsOr ds.buttonLabel "Talk to us" }

/-- Codepoints `encodeURIComponent` leaves unescaped:
`A-Z a-z 0-9 - _ . ! ~ * ( )` and the single-quote (codepoint 39). -/
def isUnreservedCode (n : Nat) : Bool :=
  (65 ≤ n && n ≤ 90) || (97 ≤ n && n ≤ 122) || (48 ≤ n && n ≤ 57) ||
  n = 45 || n = 95 || n = 46 || n = 33 || n = 126 || n = 42 ||
  n = 39 || n = 40 || n = 41

/-- UTF-8 byte sequence of a Unicode codepoint. -/
def utf8Bytes (n : Nat) : List Nat :=
  if n < 128 then [n]
  else if n < 2048 then [192 + n / 64, 128 + n % 64]
  else if n < 65536 then
    [224 + n / 4096, 128 + (n / 64) % 64, 128 + n % 64]
  else
    [240 + n / 262144, 128 + (n / 4096) % 64, 128 + (n / 64) % 64,
     128 + n % 64]

/-- Uppercase hexadecimal digit characters. -/
def hexChars : List Char :=
  ['0', '1', '2', '3', '4', '5', '6', '7', '8', '9', 'A', 'B', 'C', 'D',
   'E', 'F']

/-- The hexadecimal digit character for a value below 16. -/
def hexDigit (n : Nat) : Char := hexChars.getD n '0'

/-- Percent-escape of one byte, uppercase as `encodeURIComponent`
produces. -/
def pctByte (b : Nat) : List Char := ['%', hexDigit (b / 16), hexDigit (b % 16)]

/-- Encoding of a single character under `encodeURIComponent`. -/
def encCh (c : Char) : List Char :=
  if isUnreservedCode c.toNat then [c]
  else ((utf8Bytes c.toNat).map pctByte).flatten

/-- JavaScript `encodeURIComponent`. -/
def encodeURIComponent (s : String) : List Char :=
  (s.toList.map encCh).flatten

/-- `widgetUrl` (voicepulse-widget.js, lines 74-83): the hosted-frame URL,
with `agentName` appended only when truthy. -/
def widgetUrl (cfg : EmbedConfig) : List Char :=
  cfg.host.toList ++ "/widget?agentConfig=".toList ++
  encodeURIComponent cfg.agentConfig ++ "&title=".toList ++
  encodeURIComponent cfg.title ++
  (if cfg.agentName = "" then []
   else "&agentName=".toList ++ encodeURIComponent cfg.agentName)

/-- The query string of the hosted-widget URL (everything after the
literal `/widget?`). -/
def widgetQuery (cfg : EmbedConfig) : List Char :=
  "agentConfig=".toList ++ encodeURIComponent cfg.agentConfig ++
  "&title=".toList ++ encodeURIComponent cfg.title ++
  (if cfg.agentName = "" then []
   else "&agentName=".toList ++ encodeURIComponent cfg.agentName)

/-- Split a query string at each `&`, as a URL query parser does. -/
def splitAmp : List Char → List (List Char)
  | [] => [[]]
  | c :: rest =>
    if c = '&' then [] :: splitAmp rest
    else
      match splitAmp rest with
      | [] => [[c]]
      | g :: gs => (c :: g) :: gs

/-- The name part of one `name=value` query chunk. -/
def paramName (chunk : List Char) : List Char :=
  chunk.takeWhile (fun c => ¬ c = '=')

/-- The value part of one `name=value` query chunk. -/
def paramValue (chunk : List Char) : List Char :=
  (chunk.dropWhile (fun c => ¬ c = '=')).drop 1

/-- Parse a query string into its (name, value) parameters. -/
def parseParams (q : List Char) : List (List Char × List Char) :=
  (splitAmp q).map (fun ch => (paramName ch, paramValue ch))

/-- A DOM element: tag, id attribute, class attribute, children. -/
inductive DomElem where
  | mk (tag : String) (idAttr : Option String) (cls : String)
      (children : List DomElem)

mutual

/-- Number of elements with the given id in a DOM subtree. -/
def countById (i : String) : DomElem → Nat
  | DomElem.mk _ idA _ children =>
    (if idA = some i then 1 else 0) + countByIdL i children

/-- Number of elements with the given id in a forest of DOM subtrees. -/
def countByIdL (i : String) : List DomElem → Nat
  | [] => 0
  | e :: es => countById i e + countByIdL i es

end

/-- A page: the children of `document.head` and of `document.body`. -/
structure Page where
  headEls : List DomElem
  bodyEls : List DomElem

/-- Number of elements with the given id in the whole document. -/
def countPage (i : String) (p : Page) : Nat :=
  countByIdL i p.headEls + countByIdL i p.bodyEls

/-- The reserved container identifier (voicepulse-widget.js, line 31). -/
def containerId : String := "voicepulse-widget"

/-- The launcher button created by the embed script. -/
def launcherElem : DomElem := DomElem.mk "button" none "vp-launcher" []

/-- The panel header with its title div and close button. -/
def headerElem : DomElem :=
  DomElem.mk "div" none "vp-panel-header"
    [DomElem.mk "div" none "" [], DomElem.mk "button" none "vp-close" []]

/-- The iframe pointed at the hosted-widget URL. -/
def iframeElem : DomElem := DomElem.mk "iframe" none "" []

/-- The panel containing header and iframe. -/
def panelElem : DomElem :=
  DomElem.mk "div" none "vp-panel" [headerElem, iframeElem]

/-- `posClass` (voicepulse-widget.js, lines 91-92): the layout class the
container receives; only `position` is consulted, and both classes are
fixed-corner overlay layouts in the injected stylesheet. -/
def posClass (cfg : EmbedConfig) : String :=
  if cfg.position = "bottom-left" then "vp-bottom-left" else "vp-bottom-right"

/-- The container element with the reserved id, holding launcher and
panel. -/
def containerElem (cfg : EmbedConfig) : DomElem :=
  DomElem.mk "div" (some containerId) (posClass cfg) [launcherElem, panelElem]

/-- The injected stylesheet element. -/
def styleElem : DomElem := DomElem.mk "style" none "" []

/-- Embed installation (voicepulse-widget.js, lines 31-92): skipped
entirely when an element with the reserved container id already exists
(`document.getElementById(containerId)` truthy); otherwise the style is
added to the head and the populated container to the body. -/
def installWidget (cfg : EmbedConfig) (p : Page) : Page :=
  if 0 < countPage containerId p then p
  else { headEls := p.headEls ++ [styleElem],
         bodyEls := p.bodyEls ++ [containerElem cfg] }

/-- The README's thank-you-page embed tag (inline mode): attributes of
`public/thank-you/index.html`s script tag, with `data-inline="true"`. -/
def inlineDataset : Dataset :=
  { host := some "https://example.com", agentConfig := some "feedbackBot",
    agentName := none, title := some "Voice Pulse", position := none,
    width := some "320", height := some "380",
    buttonLabel := some "Share your feedback", inline := some "true" }

/-! ## Survey response validation (feedbackSurvey tools)

`saveSurveyResponse` validates the user's answer against the question's
type before posting it to `/api/survey`.  The `surveyQuestions` table is
the configuration shipped in `surveyQuestions.ts`.  The network write is
modelled by the list of `(questionId, validatedResponse)` payloads the
tool posts; `apiOk` is the oracle for the storage endpoint's HTTP
status. -/

/-- Survey question types. -/
inductive QType where
  | RATING
  | MULTIPLE_CHOICE
  | OPEN_ENDED
  | YES_NO
deriving DecidableEq, Repr

/-- One configured survey question. -/
structure SurveyQuestion where
  id : String
  qtype : QType
  question : String
  options : Option (List String)
  required : Option Bool
deriving DecidableEq, Repr

/-- The shipped survey configuration (surveyQuestions.ts, lines 20-51). -/
def surveyQuestions : List SurveyQuestion :=
  [ { id := "q1", qtype := QType.RATING,
      question :=
        "On a scale of 1 to 10, how would you rate your overall experience?",
      options := none, required := some true },
    { id := "q2", qtype := QType.OPEN_ENDED,
      question := "What did you like most about your experience ?",
      options := none, required := some false },
    { id := "q3", qtype := QType.OPEN_ENDED,
      question := "What could we improve?",
      options := none, required := some false },
    { id := "q4", qtype := QType.YES_NO,
      question := "Would you recommend our service to others?",
      options := none, required := some true },
    { id := "q5", qtype := QType.OPEN_ENDED,
      question := "Do you have any additional comments or feedback?",
      options := none, required := some false } ]

/-- The digit-prefix value used by `parseInt`: `none` when no leading
digit exists (NaN). -/
def digitsValue (cs : List Char) : Option Nat :=
  let ds := cs.takeWhile (fun c => c.isDigit)
  if ds = [] then none
  else some (ds.foldl (fun acc c => 10 * acc + (c.toNat - 48)) 0)

/-- JavaScript `parseInt(s, 10)`: skip leading whitespace, optional sign,
then the longest digit prefix; NaN (here `none`) when no digits
follow. -/
def jsParseInt10 (s : String) : Option Int :=
  match s.toList.dropWhile (fun c => c.isWhitespace) with
  | [] => none
  | c :: rest =>
    if c = '-' then (digitsValue rest).map (fun n => -(n : Int))
    else if c = '+' then (digitsValue rest).map (fun n => (n : Int))
    else (digitsValue (c :: rest)).map (fun n => (n : Int))

/-- `response.toLowerCase().trim()` (ASCII model). -/
def jsLowerTrim (s : String) : String :=
  let cs := (s.toList.map Char.toLower).dropWhile (fun c => c.isWhitespace)
  String.mk ((cs.reverse.dropWhile (fun c => c.isWhitespace)).reverse)

/-- JavaScript `s.startsWith(c)` for a single-character prefix: the
first character equals `c`. -/
def startsWithChar (s : String) (c : Char) : Bool :=
  match s.toList with
  | [] => false
  | d :: _ => d = c

/-- The RATING validation:
`const rating = parseInt(response, 10); isNaN(rating) || rating < 1 ||
rating > 10` rejects, otherwise the parsed rating is kept. -/
def validRating (response : String) : Option Int :=
  match jsParseInt10 response with
  | none => none
  | some k => if k < 1 ∨ 10 < k then none else some k

/-- A validated response value: the raw/normalized string, or the parsed
rating number. -/
inductive RVal where
  | str (s : String)
  | num (n : Int)
deriving DecidableEq, Repr

/-- The object `saveSurveyResponse` resolves to. -/
structure SaveResult where
  success : Bool
  errorMsg : Option String
  savedQuestionId : Option String
  savedResponse : Option RVal
  message : Option String
deriving DecidableEq, Repr

/-- A `{ success: false, error: ... }` result. -/
def saveFailure (e : String) : SaveResult :=
  { success := false, errorMsg := some e, savedQuestionId := none,
    savedResponse := none, message := none }

/-- `saveSurveyResponse` (mcpTools of the feedbackSurvey example, lines
29-107): look the question up, validate by type, then POST the validated
response to `/api/survey`.  The second component lists the write payloads
actually posted; validation failures return `{success: false}` without
posting. -/
def saveSurveyResponse (questionId response : String) (apiOk : Bool) :
    SaveResult × List (String × RVal) :=
  match surveyQuestions.find? (fun q => q.id = questionId) with
  | none =>
    (saveFailure ("Question ID \x22" ++ questionId ++
      "\x22 not found in survey configuration"), [])
  | some q =>
    let proceed := fun (v : RVal) =>
      if apiOk then
        ({ success := true, errorMsg := none,
           savedQuestionId := some questionId, savedResponse := some v,
           message := some ("Response saved for " ++ q.question) },
         [(questionId, v)])
      else
        (saveFailure "Failed to save response to server", [(questionId, v)])
    match q.qtype with
    | QType.RATING =>
      match validRating response with
      | none => (saveFailure "Rating must be a number between 1 and 10", [])
      | some k => proceed (RVal.num k)
    | QType.YES_NO =>
      let normalized := jsLowerTrim response
      if normalized = "yes" ∨ normalized = "no" ∨ normalized = "y" ∨
          normalized = "n" then
        proceed (RVal.str (if startsWithChar normalized 'y' then "yes" else "no"))
      else (saveFailure "Response must be yes or no", [])
    | QType.MULTIPLE_CHOICE =>
      match q.options with
      | some opts =>
        if opts.any (fun opt => opt.toLower = response.toLower) then
          proceed (RVal.str response)
        else (saveFailure ("Response must be one of: " ++ jsJoin ", " opts), [])
      | none => proceed (RVal.str response)
    | QType.OPEN_ENDED => proceed (RVal.str response)

/-! ### Theorems about the orchestration loop -/

theorem handleToolCalls_step (resp : RespMessage) (herr : resp.error = false)
    (hc : ¬ functionCalls resp = []) (f : FetchOutcome)
    (rest : List FetchOutcome) :
    handleToolCalls resp (f :: rest)
      = ((handleToolCalls (fetchResponsesMessage f) rest).1,
         (handleToolCalls (fetchResponsesMessage f) rest).2.1 + 1,
         (handleToolCalls (fetchResponsesMessage f) rest).2.2) := by
  rw [handleToolCalls.eq_def]
  simp [herr, hc]

/-- C2: if a reasoning request returns a non-success HTTP status, the loop
returns the generic error object (`{error: 'Something went wrong.'}`)
immediately: no partial text is produced and zero further network calls
are issued after the failing one (the oracle suffix is untouched). -/
theorem orchestration_error_short_circuit :
    ∀ (future : List FetchOutcome),
      fetchResponsesMessage FetchOutcome.httpFail
        = { error := true, output := [] } ∧
      handleToolCalls (fetchResponsesMessage FetchOutcome.httpFail) future
        = (LoopResult.errorResult, 0, future) := by
  intro future
  refine ⟨rfl, ?_⟩
  rw [handleToolCalls.eq_def]
  simp [fetchResponsesMessage]

/-- C3: a reasoning response with zero tool-call requests terminates the
loop at once (no further network calls), returning the in-order join of
its text segments; a single message yields exactly the concatenation of
its segments, two messages are separated by exactly one `'\n'` with no
leading or trailing separator. -/
theorem orchestration_no_toolcalls_concat :
    ∀ (resp : RespMessage) (future : List FetchOutcome),
      resp.error = false →
      functionCalls resp = [] →
      handleToolCalls resp future
        = (LoopResult.textResult (finalText resp), 0, future) ∧
      (∀ t, (messageItems resp).map messageText = [t] → finalText resp = t) ∧
      (∀ t1 t2, (messageItems resp).map messageText = [t1, t2] →
        finalText resp = t1 ++ "\n" ++ t2) := by
  intro resp future herr hcalls
  refine ⟨?_, ?_, ?_⟩
  · rw [handleToolCalls.eq_def]
    simp [herr, hcalls]
  · intro t ht
    rw [finalText, ht, jsJoin]
  · intro t1 t2 ht
    rw [finalText, ht, jsJoin, jsJoin]

/-- Witness for C3 at a concrete two-message, zero-tool-call response. -/
theorem orchestration_no_toolcalls_concat_witness :
    handleToolCalls
        { error := false,
          output :=
            [ { itype := "message",
                content := [⟨"output_text", "Hello "⟩, ⟨"output_text", "there"⟩],
                name := "", callId := "", arguments := "" },
              { itype := "message",
                content := [⟨"output_text", "Bye"⟩],
                name := "", callId := "", arguments := "" } ] }
        [callOutcome]
      = (LoopResult.textResult "Hello there\nBye", 0, [callOutcome]) := by
  have h := orchestration_no_toolcalls_concat
    { error := false,
      output :=
        [ { itype := "message",
            content := [⟨"output_text", "Hello "⟩, ⟨"output_text", "there"⟩],
            name := "", callId := "", arguments := "" },
          { itype := "message",
            content := [⟨"output_text", "Bye"⟩],
            name := "", callId := "", arguments := "" } ] }
    [callOutcome] rfl (by decide)
  exact h.1

/-- C6: the loop imposes no maximum iteration count.  For every bound `n`
there is a stream of reasoning responses, each carrying a tool-call
request, that drives the loop through `n + 1` further network calls
(hence more than `n` iterations); it terminates only at the final
response, which carries zero tool calls. -/
theorem orchestration_no_iteration_cap :
    ∀ (n : Nat),
      (¬ functionCalls callResp = []) ∧
      (∀ f ∈ List.replicate n callOutcome,
        ¬ functionCalls (fetchResponsesMessage f) = []) ∧
      handleToolCalls callResp (List.replicate n callOutcome ++ [doneOutcome])
        = (LoopResult.textResult "", n + 1, []) := by
  intro n
  refine ⟨by decide, ?_, ?_⟩
  · intro f hf
    rw [List.eq_of_mem_replicate hf]
    decide
  · induction n with
    | zero =>
      rw [List.replicate, List.nil_append,
        handleToolCalls_step callResp rfl (by decide) doneOutcome []]
      rw [show fetchResponsesMessage doneOutcome
            = { error := false, output := [] } from rfl]
      rw [handleToolCalls.eq_def]
      simp [functionCalls, finalText, messageItems, jsJoin]
    | succ n ih =>
      rw [List.replicate_succ, List.cons_append,
        handleToolCalls_step callResp rfl (by decide) callOutcome
          (List.replicate n callOutcome ++ [doneOutcome])]
      rw [show fetchResponsesMessage callOutcome = callResp from rfl, ih]

/-! ### Theorems about the widget connection state machine -/

/-- C1: while the status is `CONNECTING` or `CONNECTED`, a connect-intent
is a no-op: `connectToRealtime` returns the state unchanged (same status,
same `ConnectionHandle`) and issues no request, and so does the inbound
`voicepulse.connect` message; a header-button click while `CONNECTING`
is likewise a no-op (while `CONNECTED` the button is a disconnect
control, not a connect-intent).  `connectToRealtime` proceeds only when
the status is exactly `DISCONNECTED`. -/
theorem connect_intent_guarded :
    ∀ (s : WidgetState) (kf : KeyFetchOutcome) (hs : HandshakeOutcome),
      s.sessionStatus = SessionStatus.CONNECTING ∨
        s.sessionStatus = SessionStatus.CONNECTED →
      connectToRealtime s kf hs = (s, []) ∧
      handleWidgetMessage s "voicepulse.connect" kf hs = (s, []) ∧
      (s.sessionStatus = SessionStatus.CONNECTING →
        headerButtonClick s kf hs = (s, [])) := by
  intro s kf hs hstat
  have hne : s.sessionStatus ≠ SessionStatus.DISCONNECTED := by
    rcases hstat with h | h <;> simp [h]
  refine ⟨?_, ?_, ?_⟩
  · simp [connectToRealtime, hne]
  · simp [handleWidgetMessage, connectToRealtime, hne]
  · intro hcg
    simp [headerButtonClick, hcg]

/-- Witness for C1 at a concrete `CONNECTING` state. -/
theorem connect_intent_guarded_witness :
    connectToRealtime
        { sessionStatus := SessionStatus.CONNECTING, isMuted := false,
          isResponding := false, errorMsg := none, handle := none }
        KeyFetchOutcome.threw HandshakeOutcome.failed
      = ({ sessionStatus := SessionStatus.CONNECTING, isMuted := false,
           isResponding := false, errorMsg := none, handle := none }, []) :=
  (connect_intent_guarded
    { sessionStatus := SessionStatus.CONNECTING, isMuted := false,
      isResponding := false, errorMsg := none, handle := none }
    KeyFetchOutcome.threw HandshakeOutcome.failed (Or.inl rfl)).1

/-- C4: a disconnect-intent drives the status to `DISCONNECTED` and clears
the `isResponding` flag from every prior state, and the status effect
forces `isResponding` false whenever the status is not `CONNECTED`. -/
theorem disconnect_clears_state :
    ∀ (s : WidgetState),
      (disconnectFromRealtime s).1.sessionStatus = SessionStatus.DISCONNECTED ∧
      (disconnectFromRealtime s).1.isResponding = false ∧
      (∀ s2 : WidgetState, s2.sessionStatus ≠ SessionStatus.CONNECTED →
        (applyRespondingEffect s2).isResponding = false) := by
  intro s
  refine ⟨rfl, rfl, ?_⟩
  intro s2 hne
  simp [applyRespondingEffect, hne]

/-- Witness for C4 at a concrete connected, responding state. -/
theorem disconnect_clears_state_witness :
    (disconnectFromRealtime
        { sessionStatus := SessionStatus.CONNECTED, isMuted := true,
          isResponding := true, errorMsg := none,
          handle := some 7 }).1.isResponding = false ∧
    (applyRespondingEffect
        { sessionStatus := SessionStatus.CONNECTING, isMuted := false,
          isResponding := true, errorMsg := none,
          handle := none }).isResponding = false :=
  ⟨(disconnect_clears_state
      { sessionStatus := SessionStatus.CONNECTED, isMuted := true,
        isResponding := true, errorMsg := none, handle := some 7 }).2.1,
   (disconnect_clears_state
      { sessionStatus := SessionStatus.CONNECTED, isMuted := true,
        isResponding := true, errorMsg := none, handle := some 7 }).2.2
     { sessionStatus := SessionStatus.CONNECTING, isMuted := false,
       isResponding := true, errorMsg := none, handle := none }
     (by decide)⟩

/-- C5: the credential is read at `value`, or failing that at
`client_secret.value`; when both are absent the connect attempt fails
while the guard had passed: the status returns to `DISCONNECTED`, the
user-visible "Missing ephemeral key" error is set, and the only request
issued is the single credential fetch (no handshake, no retry). -/
theorem ephemeral_key_fallback_and_failure :
    ∀ (s : WidgetState) (d : SessionJson) (hs : HandshakeOutcome),
      (∀ v, d.value = some v → fetchEphemeralKey d = some v) ∧
      (∀ w, d.value = none → d.client_secret = some ⟨some w⟩ →
        fetchEphemeralKey d = some w) ∧
      (d.value = none →
        d.client_secret = none ∨ d.client_secret = some ⟨none⟩ →
        fetchEphemeralKey d = none) ∧
      (s.sessionStatus = SessionStatus.DISCONNECTED →
        fetchEphemeralKey d = none →
        connectToRealtime s (KeyFetchOutcome.ok d) hs
          = ({ s with sessionStatus := SessionStatus.DISCONNECTED,
                      errorMsg := some "Missing ephemeral key" },
             [WidgetAction.fetchSessionReq])) := by
  intro s d hs
  refine ⟨?_, ?_, ?_, ?_⟩
  · intro v hv
    simp [fetchEphemeralKey, jsNullish, hv]
  · intro w hv hcs
    simp [fetchEphemeralKey, jsNullish, hv, hcs]
  · intro hv hcs
    rcases hcs with h | h <;> simp [fetchEphemeralKey, jsNullish, hv, h]
  · intro hstat hkey
    simp [connectToRealtime, hstat, hkey, keyFalsy]

/-- Witness for C5: both credential locations absent at a disconnected
state fails the connect with the error set and a single fetch. -/
theorem ephemeral_key_fallback_and_failure_witness :
    fetchEphemeralKey ⟨none, none⟩ = none ∧
    connectToRealtime
        { sessionStatus := SessionStatus.DISCONNECTED, isMuted := false,
          isResponding := false, errorMsg := none, handle := none }
        (KeyFetchOutcome.ok ⟨none, none⟩) HandshakeOutcome.failed
      = ({ sessionStatus := SessionStatus.DISCONNECTED, isMuted := false,
           isResponding := false, errorMsg := some "Missing ephemeral key",
           handle := none }, [WidgetAction.fetchSessionReq]) :=
  ⟨(ephemeral_key_fallback_and_failure
      { sessionStatus := SessionStatus.DISCONNECTED, isMuted := false,
        isResponding := false, errorMsg := none, handle := none }
      ⟨none, none⟩ HandshakeOutcome.failed).2.2.1 rfl (Or.inl rfl),
   (ephemeral_key_fallback_and_failure
      { sessionStatus := SessionStatus.DISCONNECTED, isMuted := false,
        isResponding := false, errorMsg := none, handle := none }
      ⟨none, none⟩ HandshakeOutcome.failed).2.2.2 rfl
     ((ephemeral_key_fallback_and_failure
        { sessionStatus := SessionStatus.DISCONNECTED, isMuted := false,
          isResponding := false, errorMsg := none, handle := none }
        ⟨none, none⟩ HandshakeOutcome.failed).2.2.1 rfl (Or.inl rfl))⟩

/-! ### Theorems about the embed script -/

theorem splitAmp_no_amp (cs : List Char) (h : ¬ '&' ∈ cs) :
    splitAmp cs = [cs] := by
  induction cs with
  | nil => rfl
  | cons c rest ih =>
    have hc : ¬ c = '&' := fun hh => h (hh ▸ List.mem_cons_self c rest)
    have hrest : ¬ '&' ∈ rest := fun hm => h (List.mem_cons_of_mem c hm)
    rw [splitAmp, if_neg hc, ih hrest]

theorem splitAmp_append (xs ys : List Char) (h : ¬ '&' ∈ xs) :
    splitAmp (xs ++ '&' :: ys) = xs :: splitAmp ys := by
  induction xs with
  | nil => simp [splitAmp]
  | cons c rest ih =>
    have hc : ¬ c = '&' := fun hh => h (hh ▸ List.mem_cons_self c rest)
    have hrest : ¬ '&' ∈ rest := fun hm => h (List.mem_cons_of_mem c hm)
    rw [List.cons_append, splitAmp, if_neg hc, ih hrest]

theorem paramSplit (nm v : List Char) (h : ∀ c ∈ nm, ¬ c = '=') :
    paramName (nm ++ '=' :: v) = nm ∧ paramValue (nm ++ '=' :: v) = v := by
  induction nm with
  | nil =>
    constructor <;>
      simp [paramName, paramValue, List.takeWhile_cons, List.dropWhile_cons]
  | cons c rest ih =>
    have hc : ¬ c = '=' := h c (List.mem_cons_self c rest)
    have hrest := ih (fun d hd => h d (List.mem_cons_of_mem c hd))
    constructor
    · rw [List.cons_append, paramName, List.takeWhile_cons]
      have hd : (decide ¬ c = '=') = true := by simp [hc]
      rw [hd, if_pos rfl]
      have h1 : paramName (rest ++ '=' :: v) = rest := hrest.1
      rw [paramName] at h1
      rw [h1]
    · rw [List.cons_append, paramValue, List.dropWhile_cons]
      have hd : (decide ¬ c = '=') = true := by simp [hc]
      rw [hd, if_pos rfl]
      have h2 : paramValue (rest ++ '=' :: v) = v := hrest.2
      rw [paramValue] at h2
      rw [h2]

theorem hexDigit_valid (n : Nat) : ¬ hexDigit n = '&' ∧ ¬ hexDigit n = '=' := by
  unfold hexDigit hexChars
  rcases Nat.lt_or_ge n 16 with h | h
  · interval_cases n <;> exact ⟨by decide, by decide⟩
  · rw [List.getD_eq_default]
    · exact ⟨by decide, by decide⟩
    · simp only [List.length_cons, List.length_nil]
      omega

theorem encodeURIComponent_mem (s : String) :
    ∀ c ∈ encodeURIComponent s, ¬ c = '&' ∧ ¬ c = '=' := by
  intro c hc
  unfold encodeURIComponent at hc
  rw [List.mem_flatten] at hc
  obtain ⟨piece, hpiece, hcp⟩ := hc
  rw [List.mem_map] at hpiece
  obtain ⟨ch, _, rfl⟩ := hpiece
  unfold encCh at hcp
  by_cases hu : isUnreservedCode ch.toNat
  · rw [if_pos hu, List.mem_singleton] at hcp
    subst hcp
    constructor <;> intro heq <;> rw [heq] at hu <;> exact absurd hu (by decide)
  · rw [if_neg hu, List.mem_flatten] at hcp
    obtain ⟨pb, hpb, hcpb⟩ := hcp
    rw [List.mem_map] at hpb
    obtain ⟨b, _, rfl⟩ := hpb
    unfold pctByte at hcpb
    rw [List.mem_cons, List.mem_cons, List.mem_singleton] at hcpb
    rcases hcpb with h1 | h1 | h1
    · subst h1
      exact ⟨by decide, by decide⟩
    · subst h1
      exact hexDigit_valid _
    · subst h1
      exact hexDigit_valid _

theorem parseParams_query (cfg : EmbedConfig) :
    parseParams (widgetQuery cfg)
      = [("agentConfig".toList, encodeURIComponent cfg.agentConfig),
         ("title".toList, encodeURIComponent cfg.title)]
        ++ (if cfg.agentName = "" then []
            else [("agentName".toList, encodeURIComponent cfg.agentName)]) := by
  have hA : ¬ '&' ∈ ("agentConfig".toList ++ '=' ::
      encodeURIComponent cfg.agentConfig) := by
    intro hm
    rcases List.mem_append.mp hm with h | h
    · exact absurd h (by decide)
    · rcases List.mem_cons.mp h with h | h
      · exact absurd h (by decide)
      · exact (encodeURIComponent_mem _ _ h).1 rfl
  have hT : ¬ '&' ∈ ("title".toList ++ '=' :: encodeURIComponent cfg.title) :=
    by
    intro hm
    rcases List.mem_append.mp hm with h | h
    · exact absurd h (by decide)
    · rcases List.mem_cons.mp h with h | h
      · exact absurd h (by decide)
      · exact (encodeURIComponent_mem _ _ h).1 rfl
  have hN : ¬ '&' ∈ ("agentName".toList ++ '=' ::
      encodeURIComponent cfg.agentName) := by
    intro hm
    rcases List.mem_append.mp hm with h | h
    · exact absurd h (by decide)
    · rcases List.mem_cons.mp h with h | h
      · exact absurd h (by decide)
      · exact (encodeURIComponent_mem _ _ h).1 rfl
  have eA : ("agentConfig=".toList : List Char)
      = "agentConfig".toList ++ ['='] := by decide
  have eT : ("&title=".toList : List Char)
      = '&' :: ("title".toList ++ ['=']) := by decide
  have eN : ("&agentName=".toList : List Char)
      = '&' :: ("agentName".toList ++ ['=']) := by decide
  have hnmA : ∀ c ∈ ("agentConfig".toList : List Char), ¬ c = '=' := by decide
  have hnmT : ∀ c ∈ ("title".toList : List Char), ¬ c = '=' := by decide
  have hnmN : ∀ c ∈ ("agentName".toList : List Char), ¬ c = '=' := by decide
  by_cases hname : cfg.agentName = ""
  · have hq : widgetQuery cfg
        = ("agentConfig".toList ++ '=' :: encodeURIComponent cfg.agentConfig)
          ++ '&' :: ("title".toList ++ '=' :: encodeURIComponent cfg.title) :=
      by
      unfold widgetQuery
      rw [if_pos hname, eA, eT]
      simp [List.append_assoc]
    rw [if_pos hname, List.append_nil, parseParams, hq, splitAmp_append _ _ hA,
      splitAmp_no_amp _ hT, List.map_cons, List.map_cons, List.map_nil]
    rw [(paramSplit _ _ hnmA).1, (paramSplit _ _ hnmA).2,
      (paramSplit _ _ hnmT).1, (paramSplit _ _ hnmT).2]
  · have hq : widgetQuery cfg
        = ("agentConfig".toList ++ '=' :: encodeURIComponent cfg.agentConfig)
          ++ '&' :: (("title".toList ++ '=' :: encodeURIComponent cfg.title)
            ++ '&' :: ("agentName".toList ++ '=' ::
              encodeURIComponent cfg.agentName)) := by
      unfold widgetQuery
      rw [if_neg hname, eA, eT, eN]
      simp [List.append_assoc]
    rw [if_neg hname, parseParams, hq, splitAmp_append _ _ hA,
      splitAmp_append _ _ hT, splitAmp_no_amp _ hN, List.map_cons,
      List.map_cons, List.map_cons, List.map_nil]
    rw [(paramSplit _ _ hnmA).1, (paramSplit _ _ hnmA).2,
      (paramSplit _ _ hnmT).1, (paramSplit _ _ hnmT).2,
      (paramSplit _ _ hnmN).1, (paramSplit _ _ hnmN).2]
    rfl

/-- C7: the hosted-widget URL is `{host}/widget?` followed by the query;
the query parses to a percent-encoded `agentConfig` parameter and a
percent-encoded `title` parameter, always present in that order, followed
by an `agentName` parameter exactly when the resolved agent name is
non-empty; and an `agentName` parameter is present if and only if the
`data-agent-name` attribute was supplied non-empty. -/
theorem embed_widget_url_params :
    ∀ (ds : Dataset) (origin : Option String),
      widgetUrl (readConfig ds origin)
        = (readConfig ds origin).host.toList ++ "/widget?".toList
          ++ widgetQuery (readConfig ds origin) ∧
      parseParams (widgetQuery (readConfig ds origin))
        = [("agentConfig".toList,
            encodeURIComponent (readConfig ds origin).agentConfig),
           ("title".toList, encodeURIComponent (readConfig ds origin).title)]
          ++ (if (readConfig ds origin).agentName = "" then []
              else [("agentName".toList,
                encodeURIComponent (readConfig ds origin).agentName)]) ∧
      ("agentName".toList
          ∈ (parseParams (widgetQuery (readConfig ds origin))).map Prod.fst
        ↔ ∃ snm, ds.agentName = some snm ∧ ¬ snm = "") := by
  intro ds origin
  refine ⟨?_, parseParams_query _, ?_⟩
  · unfold widgetUrl widgetQuery
    rw [show ("/widget?agentConfig=".toList : List Char)
        = "/widget?".toList ++ "agentConfig=".toList from by decide]
    simp [List.append_assoc]
  · rw [parseParams_query]
    by_cases hname : (readConfig ds origin).agentName = ""
    · rw [if_pos hname, List.append_nil]
      simp only [List.map_cons, List.map_nil]
      constructor
      · intro hm
        rcases List.mem_cons.mp hm with h | h
        · exact absurd h (by decide)
        · rcases List.mem_cons.mp h with h | h
          · exact absurd h (by decide)
          · exact absurd h (List.not_mem_nil _)
      · rintro ⟨snm, hsnm, hne⟩
        exfalso
        have hj : jsOr ds.agentName "" = "" := hname
        rw [hsnm] at hj
        simp only [jsOr] at hj
        rw [if_neg hne] at hj
        exact hne hj
    · rw [if_neg hname]
      simp only [List.map_append, List.map_cons, List.map_nil]
      constructor
      · intro _
        have hj : ¬ jsOr ds.agentName "" = "" := hname
        rcases hds : ds.agentName with _ | snm
        · exfalso
          apply hj
          rw [hds]
          rfl
        · refine ⟨snm, rfl, ?_⟩
          intro hsnm
          apply hj
          rw [hds]
          simp only [jsOr]
          rw [if_pos hsnm]
      · intro _
        simp

theorem countByIdL_append (i : String) (xs ys : List DomElem) :
    countByIdL i (xs ++ ys) = countByIdL i xs + countByIdL i ys := by
  induction xs with
  | nil => simp [countByIdL]
  | cons e es ih =>
    rw [List.cons_append, countByIdL, countByIdL, ih]
    omega

theorem countById_container (cfg : EmbedConfig) :
    countById containerId (containerElem cfg) = 1 := by
  simp [containerElem, countById, countByIdL, launcherElem, panelElem,
    headerElem, iframeElem]

theorem countPage_install (cfg : EmbedConfig) (p : Page)
    (h : ¬ 0 < countPage containerId p) :
    countPage containerId (installWidget cfg p)
      = countPage containerId p + 1 := by
  rw [installWidget, if_neg h, countPage, countByIdL_append, countByIdL_append]
  rw [show countByIdL containerId [styleElem] = 0 from by
    simp [styleElem, countById, countByIdL]]
  rw [show countByIdL containerId [containerElem cfg]
      = countById containerId (containerElem cfg) + 0 from rfl]
  rw [countById_container]
  rw [countPage]
  omega

/-- C8: embed installation is idempotent: when an element with the
reserved container id already exists the script leaves the page
untouched, installing twice equals installing once, and on a page with no
container, running the embed script twice yields exactly one element with
the reserved container id. -/
theorem embed_install_idempotent :
    ∀ (cfg : EmbedConfig) (p : Page),
      (0 < countPage containerId p → installWidget cfg p = p) ∧
      installWidget cfg (installWidget cfg p) = installWidget cfg p ∧
      (countPage containerId p = 0 →
        countPage containerId (installWidget cfg (installWidget cfg p)) = 1)
      := by
  intro cfg p
  by_cases h : 0 < countPage containerId p
  · have hid : installWidget cfg p = p := by rw [installWidget, if_pos h]
    refine ⟨fun _ => hid, ?_, ?_⟩
    · rw [hid, hid]
    · intro h0
      omega
  · have h1 : countPage containerId (installWidget cfg p)
        = countPage containerId p + 1 := countPage_install cfg p h
    have h2 : installWidget cfg (installWidget cfg p) = installWidget cfg p :=
      by
      conv_lhs => rw [installWidget]
      rw [if_pos (by omega)]
    refine ⟨fun hp => absurd hp h, h2, ?_⟩
    intro h0
    rw [h2, h1, h0]

/-- Witness for C8 on the concrete empty page: installing twice yields
exactly one container element. -/
theorem embed_install_idempotent_witness :
    countPage containerId (⟨[], []⟩ : Page) = 0 ∧
    countPage containerId
        (installWidget
          (readConfig inlineDataset (some "https://example.com"))
          (installWidget
            (readConfig inlineDataset (some "https://example.com"))
            ⟨[], []⟩)) = 1 :=
  ⟨rfl,
   (embed_install_idempotent
     (readConfig inlineDataset (some "https://example.com"))
     ⟨[], []⟩).2.2 rfl⟩

/-- C9: the embed script never reads the `data-inline` attribute the
README documents: the resolved configuration, the installed page, and the
container's layout class are identical whatever `inline` holds, the
layout class is always one of the two fixed-corner overlay classes, and
the README's inline-mode thank-you-page embed still gets the
`vp-bottom-right` fixed overlay class. -/
theorem inline_attribute_ignored :
    ∀ (ds : Dataset) (origin : Option String) (v : Option String) (p : Page),
      readConfig { ds with inline := v } origin = readConfig ds origin ∧
      installWidget (readConfig { ds with inline := v } origin) p
        = installWidget (readConfig ds origin) p ∧
      (posClass (readConfig ds origin) = "vp-bottom-left" ∨
        posClass (readConfig ds origin) = "vp-bottom-right") ∧
      posClass (readConfig inlineDataset (some "https://example.com"))
        = "vp-bottom-right" := by
  intro ds origin v p
  refine ⟨rfl, rfl, ?_, by decide⟩
  rw [posClass]
  by_cases h : (readConfig ds origin).position = "bottom-left"
  · rw [if_pos h]
    exact Or.inl rfl
  · rw [if_neg h]
    exact Or.inr rfl

/-! ### Theorems about survey response validation -/

/-- C10: for a RATING question, a response that does not parse (via
`parseInt(response, 10)`) to an integer between 1 and 10 is rejected with
`{success: false}` and no network write; for a YES_NO question, responses
outside {yes, no, y, n} after lowercasing and trimming are rejected
without a write, and accepted ones are posted normalized to exactly
"yes" or "no". -/
theorem save_survey_validation :
    ∀ (questionId : String) (q : SurveyQuestion) (response : String)
      (apiOk : Bool),
      surveyQuestions.find? (fun x => x.id = questionId) = some q →
      (q.qtype = QType.RATING → validRating response = none →
        saveSurveyResponse questionId response apiOk
          = (saveFailure "Rating must be a number between 1 and 10", [])) ∧
      (q.qtype = QType.YES_NO →
        ¬ (jsLowerTrim response = "yes" ∨ jsLowerTrim response = "no" ∨
            jsLowerTrim response = "y" ∨ jsLowerTrim response = "n") →
        saveSurveyResponse questionId response apiOk
          = (saveFailure "Response must be yes or no", [])) ∧
      (q.qtype = QType.YES_NO →
        (jsLowerTrim response = "yes" ∨ jsLowerTrim response = "y") →
        (saveSurveyResponse questionId response apiOk).2
          = [(questionId, RVal.str "yes")]) ∧
      (q.qtype = QType.YES_NO →
        (jsLowerTrim response = "no" ∨ jsLowerTrim response = "n") →
        (saveSurveyResponse questionId response apiOk).2
          = [(questionId, RVal.str "no")]) := by
  intro questionId q response apiOk hfind
  refine ⟨?_, ?_, ?_, ?_⟩
  · intro hq hv
    simp [saveSurveyResponse, hfind, hq, hv]
  · intro hq hmem
    simp [saveSurveyResponse, hfind, hq, hmem]
  · intro hq hmem
    rcases hmem with h | h
    · have hsw : startsWithChar "yes" 'y' = true := by decide
      cases apiOk <;> simp [saveSurveyResponse, hfind, hq, h, hsw]
    · have hsw : startsWithChar "y" 'y' = true := by decide
      cases apiOk <;> simp [saveSurveyResponse, hfind, hq, h, hsw]
  · intro hq hmem
    rcases hmem with h | h
    · have hsw : startsWithChar "no" 'y' = false := by decide
      cases apiOk <;> simp [saveSurveyResponse, hfind, hq, h, hsw]
    · have hsw : startsWithChar "n" 'y' = false := by decide
      cases apiOk <;> simp [saveSurveyResponse, hfind, hq, h, hsw]

/-- Witness for C10: an out-of-range rating is rejected without a write,
" YES " is saved for q4 as exactly "yes", and "maybe" is rejected. -/
theorem save_survey_validation_witness :
    saveSurveyResponse "q1" "11" true
      = (saveFailure "Rating must be a number between 1 and 10", []) ∧
    (saveSurveyResponse "q4" " YES " true).2 = [("q4", RVal.str "yes")] ∧
    saveSurveyResponse "q4" "maybe" true
      = (saveFailure "Response must be yes or no", []) :=
  ⟨(save_survey_validation "q1"
      { id := "q1", qtype := QType.RATING,
        question :=
          "On a scale of 1 to 10, how would you rate your overall experience?",
        options := none, required := some true }
      "11" true (by decide)).1 rfl (by decide),
   (save_survey_validation "q4"
      { id := "q4", qtype := QType.YES_NO,
        question := "Would you recommend our service to others?",
        options := none, required := some true }
      " YES " true (by decide)).2.2.1 rfl (Or.inl (by decide)),
   (save_survey_validation "q4"
      { id := "q4", qtype := QType.YES_NO,
        question := "Would you recommend our service to others?",
        options := none, required := some true }
      "maybe" true (by decide)).2.1 rfl (by decide)⟩

end VoicePulse
